import Mathlib

/-!
Verification of the Trivy scan Lambda handler
(`src/trivy_lambda_setup/lambda_handler.py`).

The handler is a linear pipeline: parse the request body, run the scanner
subprocess, parse its JSON output, normalize findings, summarize, and wrap
the result in an HTTP-style response envelope.  The two subprocess
invocations (the scan and the version query) are modelled as oracle values
supplied to the handler; every theorem quantifies over all oracle outcomes.
JSON numbers are modelled as rationals.
-/

/-- JSON values as produced for response bodies (numbers as rationals). -/
inductive Json where
  | null
  | bool (b : Bool)
  | num (q : ℚ)
  | str (s : String)
  | arr (elems : List Json)
  | obj (fields : List (String × Json))

/-- Field lookup on a JSON object (`none` on non-objects / missing keys). -/
def Json.lookup (j : Json) (key : String) : Option Json :=
  match j with
  | .obj fields => fields.lookup key
  | _ => none

/-- One source entry of a vulnerability's `CVSS` map: optional `V3Score`
and `V2Score` fields. -/
structure CvssEntry where
  V3Score : Option ℚ
  V2Score : Option ℚ
deriving DecidableEq

/-- A raw finding as read by the handler — each optional field models one
`vuln.get(key, default)` access; an absent key is `none`.  The `CVSS` map is
an association list keyed by source name (`vuln.get('CVSS', {})` gives `[]`
when absent). -/
structure RawVuln where
  VulnerabilityID : Option String
  PkgName : Option String
  InstalledVersion : Option String
  FixedVersion : Option String
  Severity : Option String
  CVSS : List (String × CvssEntry)
  Description : Option String
  References : List String

/-- One scan target of the Trivy output (`Results` entry): a `Target`
name and its `Vulnerabilities` list. -/
structure RawTarget where
  Target : Option String
  Vulnerabilities : List RawVuln

/-- Parsed Trivy output: `trivy_output.get('Results', [])`. -/
structure TrivyOutput where
  Results : List RawTarget

/-- The loop body of `extract_cvss_score`: walk the preference list, and at
the first source present in the `CVSS` map return
`cvss[source].get('V3Score', cvss[source].get('V2Score', 0))`. -/
def extractLoop (cvss : List (String × CvssEntry)) : List String → ℚ
  | [] => 0
  | source :: rest =>
    match cvss.lookup source with
    | some entry => entry.V3Score.getD (entry.V2Score.getD 0)
    | none => extractLoop cvss rest

/-- `extract_cvss_score` (lines 144–153): try sources `nvd`, `redhat`,
`ghsa` in order; return 0 when none is present. -/
def extract_cvss_score (vuln : RawVuln) : ℚ :=
  extractLoop vuln.CVSS ["nvd", "redhat", "ghsa"]

/-- A normalized finding, the dict built at lines 79–89. -/
structure Finding where
  cve_id : String
  package : String
  installed_version : String
  fixed_version : String
  severity : String
  cvss_score : ℚ
  description : String
  layer : String
  references : List String

/-- Normalization of one raw finding (lines 79–89): verbatim copies with
explicit sentinels for absent fields, description truncated to 500
characters, references truncated to 3 entries. -/
def normalizeVuln (target : RawTarget) (vuln : RawVuln) : Finding :=
  { cve_id := vuln.VulnerabilityID.getD "N/A"
    package := vuln.PkgName.getD "Unknown"
    installed_version := vuln.InstalledVersion.getD "Unknown"
    fixed_version := vuln.FixedVersion.getD "No fix available"
    severity := vuln.Severity.getD "UNKNOWN"
    cvss_score := extract_cvss_score vuln
    description := (vuln.Description.getD "").take 500
    layer := target.Target.getD "Unknown"
    references := vuln.References.take 3 }

/-- The nested loop of lines 76–89: flatten all targets into one ordered
sequence of normalized findings, target order then within-target order. -/
def transformResults (results : List RawTarget) : List Finding :=
  results.flatMap fun target => target.Vulnerabilities.map (normalizeVuln target)

/-- The summary dict of lines 92–98. -/
structure Summary where
  total : Nat
  critical : Nat
  high : Nat
  medium : Nat
  low : Nat
deriving DecidableEq

/-- Summary computation (lines 92–98): total length plus one count per
named severity bucket, by exact string comparison. -/
def mkSummary (vulnerabilities : List Finding) : Summary :=
  { total := vulnerabilities.length
    critical := vulnerabilities.countP fun v => v.severity == "CRITICAL"
    high := vulnerabilities.countP fun v => v.severity == "HIGH"
    medium := vulnerabilities.countP fun v => v.severity == "MEDIUM"
    low := vulnerabilities.countP fun v => v.severity == "LOW" }

/-- A request body as read by lines 32–34: each field models one
`body.get(key, default)` access. -/
structure ReqBody where
  image : Option String
  severity : Option String
  ignore_unfixed : Option Bool

/-- Line 32: `body.get('image', 'nginx:latest')`. -/
def ReqBody.imageUsed (body : ReqBody) : String :=
  body.image.getD "nginx:latest"

/-- Line 33: `body.get('severity', 'CRITICAL,HIGH,MEDIUM,LOW')`. -/
def ReqBody.severityUsed (body : ReqBody) : String :=
  body.severity.getD "CRITICAL,HIGH,MEDIUM,LOW"

/-- Line 34: `body.get('ignore_unfixed', False)`. -/
def ReqBody.ignoreUnfixedUsed (body : ReqBody) : Bool :=
  body.ignore_unfixed.getD false

/-- The Trivy command line built at lines 37–49: base options with the
severity filter, then `--ignore-unfixed` when requested, then the image. -/
def buildCmd (body : ReqBody) : List String :=
  let base := ["/usr/local/bin/trivy", "image", "--format", "json", "--quiet",
               "--severity", body.severityUsed, "--cache-dir", "/tmp/trivy-cache"]
  (if body.ignoreUnfixedUsed then base ++ ["--ignore-unfixed"] else base)
    ++ [body.imageUsed]

/-- The `body` slot of the incoming event (lines 27–30):
absent/falsy (treated as the empty dict), a string that `json.loads` either
parses to a request body or rejects (the error case carries the exception
text `str(e)`), or an already-parsed dict. -/
inductive EventBody where
  | absent
  | strBody (parsed : Except String ReqBody)
  | objBody (b : ReqBody)

/-- Lines 27–30 plus the surrounding try: obtain the request body, or the
exception text when `json.loads` raises. -/
def parseEventBody : EventBody → Except String ReqBody
  | .absent => .ok ⟨none, none, none⟩
  | .strBody parsed => parsed
  | .objBody b => .ok b

/-- The captured standard output of the scan subprocess: the empty (falsy)
string, a non-empty string that `json.loads` rejects (carrying the
exception text), or a non-empty string parsing to a Trivy report. -/
inductive Stdout where
  | empty
  | invalid (errMsg : String)
  | valid (out : TrivyOutput)

/-- Python truthiness of `result.stdout` (`not result.stdout`). -/
def Stdout.isEmpty : Stdout → Bool
  | .empty => true
  | _ => false

/-- Line 73: `json.loads(result.stdout) if result.stdout else {}`, in the
branches where parsing does not raise. -/
def Stdout.toOutput : Stdout → TrivyOutput
  | .valid out => out
  | _ => ⟨[]⟩

/-- Outcome of the scan subprocess (line 52): either `TimeoutExpired` was
raised, or the process completed with an exit code, stdout and stderr. -/
inductive ScanOutcome where
  | timeout
  | completed (returncode : Int) (stdout : Stdout) (stderr : String)

/-- Outcome of the version-query subprocess (lines 159–164): completed
with some stdout, or raised (timeout or any other exception). -/
inductive VersionOutcome where
  | ok (stdout : String)
  | failed

/-- `get_trivy_version` (lines 156–167): first line of the stripped stdout
on success; `'Unknown'` on any failure, absorbed by the bare `except`. -/
def get_trivy_version : VersionOutcome → String
  | .ok stdout => (stdout.trim.splitOn "\n").headD ""
  | .failed => "Unknown"

/-- An HTTP-style response envelope; the body is kept as the JSON value
handed to `json.dumps`, so every body is well-formed JSON by construction. -/
structure Response where
  statusCode : Nat
  headers : List (String × String)
  body : Json

/-- The header dict repeated on every return path (CORS + content type). -/
def corsHeaders : List (String × String) :=
  [("Content-Type", "application/json"), ("Access-Control-Allow-Origin", "*")]

/-- The generic `except Exception` response (lines 131–141). -/
def internalErrorResponse (msg : String) : Response :=
  { statusCode := 500, headers := corsHeaders
    body := .obj [("error", .str msg)] }

/-- Serialization of one normalized finding into the response body. -/
def Finding.toJson (v : Finding) : Json :=
  .obj [("cve_id", .str v.cve_id), ("package", .str v.package),
        ("installed_version", .str v.installed_version),
        ("fixed_version", .str v.fixed_version),
        ("severity", .str v.severity), ("cvss_score", .num v.cvss_score),
        ("description", .str v.description), ("layer", .str v.layer),
        ("references", .arr (v.references.map Json.str))]

/-- Serialization of the summary dict. -/
def Summary.toJson (s : Summary) : Json :=
  .obj [("total", .num s.total), ("critical", .num s.critical),
        ("high", .num s.high), ("medium", .num s.medium),
        ("low", .num s.low)]

/-- The success path (lines 73–117): transform the parsed output, compute
the summary, and return the 200 envelope (`scan_time` is the
`datetime.now().isoformat()` value, passed in as an oracle). -/
def successResponse (body : ReqBody) (out : TrivyOutput) (ver : VersionOutcome)
    (scan_time : String) : Response :=
  let vulnerabilities := transformResults out.Results
  let summary := mkSummary vulnerabilities
  { statusCode := 200, headers := corsHeaders
    body := .obj [("scanner", .str "Trivy (Lambda)"),
                  ("image", .str body.imageUsed),
                  ("scan_time", .str scan_time),
                  ("vulnerabilities", .arr (vulnerabilities.map Finding.toJson)),
                  ("summary", summary.toJson),
                  ("live_data", .bool true),
                  ("trivy_version", .str (get_trivy_version ver))] }

/-- `handler` (lines 14–141).  A request-body parse failure raises inside
the try and lands in the generic `except`; a timeout of the scan subprocess
lands in the `TimeoutExpired` branch (lines 119–130, note the `'unknown'`
default there); a non-zero exit with empty stdout returns the scan-failure
envelope (lines 59–70); stdout that `json.loads` rejects lands in the
generic `except`; otherwise the success path runs. -/
def handler (event : EventBody) (scan : ScanOutcome) (ver : VersionOutcome)
    (scan_time : String) : Response :=
  match parseEventBody event with
  | .error e => internalErrorResponse e
  | .ok body =>
    match scan with
    | .timeout =>
      { statusCode := 504, headers := corsHeaders
        body := .obj [("error", .str "Scan timed out. Try a smaller image or increase Lambda timeout."),
                      ("image", .str (body.image.getD "unknown"))] }
    | .completed returncode stdout stderr =>
      if returncode ≠ 0 ∧ stdout.isEmpty then
        { statusCode := 500, headers := corsHeaders
          body := .obj [("error", .str ("Trivy scan failed: " ++ stderr)),
                        ("image", .str body.imageUsed)] }
      else
        match stdout with
        | .invalid e => internalErrorResponse e
        | s => successResponse body s.toOutput ver scan_time

/-- The four named-bucket counts of lines 94–97 add up to the count of
findings carrying one of the four recognized labels (the predicates are
mutually exclusive: a severity string equals at most one label). -/
lemma severity_bucket_sum (l : List Finding) :
    l.countP (fun v => v.severity == "CRITICAL")
      + l.countP (fun v => v.severity == "HIGH")
      + l.countP (fun v => v.severity == "MEDIUM")
      + l.countP (fun v => v.severity == "LOW")
    = l.countP (fun v => v.severity == "CRITICAL" || v.severity == "HIGH"
        || v.severity == "MEDIUM" || v.severity == "LOW") := by
  induction l with
  | nil => rfl
  | cons v t ih =>
    simp only [List.countP_cons]
    by_cases h1 : v.severity = "CRITICAL" <;>
      by_cases h2 : v.severity = "HIGH" <;>
        by_cases h3 : v.severity = "MEDIUM" <;>
          by_cases h4 : v.severity = "LOW" <;>
            simp_all <;> omega

/-- C3: for every list of normalized findings, the summary's total is the
list length, each named bucket counts the findings whose severity equals
that label exactly, the four buckets sum to at most the total, and the sum
equals the total iff every finding carries one of the four labels. -/
theorem mkSummary_correct (vulnerabilities : List Finding) :
    (mkSummary vulnerabilities).total = vulnerabilities.length
    ∧ (mkSummary vulnerabilities).critical
        = vulnerabilities.countP (fun v => v.severity == "CRITICAL")
    ∧ (mkSummary vulnerabilities).high
        = vulnerabilities.countP (fun v => v.severity == "HIGH")
    ∧ (mkSummary vulnerabilities).medium
        = vulnerabilities.countP (fun v => v.severity == "MEDIUM")
    ∧ (mkSummary vulnerabilities).low
        = vulnerabilities.countP (fun v => v.severity == "LOW")
    ∧ (mkSummary vulnerabilities).critical + (mkSummary vulnerabilities).high
        + (mkSummary vulnerabilities).medium + (mkSummary vulnerabilities).low
        ≤ (mkSummary vulnerabilities).total
    ∧ ((mkSummary vulnerabilities).critical + (mkSummary vulnerabilities).high
          + (mkSummary vulnerabilities).medium + (mkSummary vulnerabilities).low
          = (mkSummary vulnerabilities).total
        ↔ ∀ v ∈ vulnerabilities, v.severity = "CRITICAL" ∨ v.severity = "HIGH"
            ∨ v.severity = "MEDIUM" ∨ v.severity = "LOW") := by
  refine ⟨rfl, rfl, rfl, rfl, rfl, ?_, ?_⟩
  · show vulnerabilities.countP _ + vulnerabilities.countP _
        + vulnerabilities.countP _ + vulnerabilities.countP _ ≤ _
    rw [severity_bucket_sum]
    exact List.countP_le_length _
  · show vulnerabilities.countP _ + vulnerabilities.countP _
        + vulnerabilities.countP _ + vulnerabilities.countP _
        = vulnerabilities.length ↔ _
    rw [severity_bucket_sum, List.countP_eq_length]
    simp [Bool.or_eq_true, or_assoc]

/-- The raw finding refuting C2: the `nvd` source is present in the CVSS
map but carries neither a V3 nor a V2 score, while `redhat` carries a V3
score of 7. -/
def cvssCounterexampleVuln : RawVuln :=
  { VulnerabilityID := none, PkgName := none, InstalledVersion := none
    FixedVersion := none, Severity := none
    CVSS := [("nvd", ⟨none, none⟩), ("redhat", ⟨some 7, none⟩)]
    Description := none, References := [] }

/-- Formalization of the claim's side condition: a V3 or V2 score is
present in at least one of the listed sources. -/
def hasListedScore (vuln : RawVuln) : Bool :=
  ["nvd", "redhat", "ghsa"].any fun source =>
    match vuln.CVSS.lookup source with
    | some entry => entry.V3Score.isSome || entry.V2Score.isSome
    | none => false

/-- C2 counterexample: the code stops at the first source present in the
CVSS map — here `nvd`, scoreless — and returns 0 even though `redhat`
carries a score of 7, refuting both "first available score" and "0 iff no
score in any listed source". -/
theorem extract_cvss_score_ignores_later_sources :
    extract_cvss_score cvssCounterexampleVuln = 0
    ∧ hasListedScore cvssCounterexampleVuln = true
    ∧ cvssCounterexampleVuln.CVSS.lookup "redhat" = some ⟨some 7, none⟩ := by
  refine ⟨rfl, rfl, rfl⟩

/-- The first source of the preference list that is present in the CVSS
map, regardless of whether it carries any score. -/
def firstListedSource (vuln : RawVuln) : Option CvssEntry :=
  match ["nvd", "redhat", "ghsa"].find? (fun s => (vuln.CVSS.lookup s).isSome) with
  | some s => vuln.CVSS.lookup s
  | none => none

/-- C2 amended: the extracted score is the V3 (else V2, else 0) score of
the first source present in the CVSS map among nvd, redhat, ghsa, and 0
when none of the three is present — so a score in a later source is
ignored once an earlier source is present. -/
theorem extract_cvss_score_first_present_source (vuln : RawVuln) :
    extract_cvss_score vuln =
      match firstListedSource vuln with
      | some entry => entry.V3Score.getD (entry.V2Score.getD 0)
      | none => 0 := by
  unfold extract_cvss_score firstListedSource
  cases h1 : vuln.CVSS.lookup "nvd" <;>
    cases h2 : vuln.CVSS.lookup "redhat" <;>
      cases h3 : vuln.CVSS.lookup "ghsa" <;>
        simp [extractLoop, List.find?, h1, h2, h3]

/-- The comma-joined full severity enumeration that the claim asserts as
the default filter. -/
def fullSeverityEnum : String := "CRITICAL,HIGH,MEDIUM,LOW,UNKNOWN"

/-- C7 counterexample: with severity absent, the filter defaults to
`CRITICAL,HIGH,MEDIUM,LOW` — not the full enumeration, since UNKNOWN is not
included. -/
theorem default_severity_omits_unknown :
    ReqBody.severityUsed ⟨none, none, none⟩ = "CRITICAL,HIGH,MEDIUM,LOW"
    ∧ ReqBody.severityUsed ⟨none, none, none⟩ ≠ fullSeverityEnum :=
  ⟨rfl, by decide⟩

/-- C7 amended: an absent image defaults to `nginx:latest`, an absent
severity filter defaults to `CRITICAL,HIGH,MEDIUM,LOW` (UNKNOWN is not part
of the default), and an absent ignore_unfixed defaults to false. -/
theorem request_defaults (img sev : Option String) (iu : Option Bool) :
    ReqBody.imageUsed ⟨none, sev, iu⟩ = "nginx:latest"
    ∧ ReqBody.severityUsed ⟨img, none, iu⟩ = "CRITICAL,HIGH,MEDIUM,LOW"
    ∧ ReqBody.ignoreUnfixedUsed ⟨img, sev, none⟩ = false :=
  ⟨rfl, rfl, rfl⟩

/-- C9 counterexample: a request that supplies an empty-string image passes
it through to the scanner command line — the default applies only when the
image key is absent, so the non-emptiness invariant fails on this body. -/
theorem empty_image_passes_through :
    ReqBody.imageUsed ⟨some "", none, none⟩ = ""
    ∧ (buildCmd ⟨some "", none, none⟩).getLast? = some "" := by
  refine ⟨rfl, ?_⟩
  simp [buildCmd, ReqBody.imageUsed, ReqBody.ignoreUnfixedUsed, ReqBody.severityUsed]

/-- C9 amended: the image used by the scan is non-empty whenever the
request omits the image key (the default applies) or supplies a non-empty
image; only an explicitly empty string reaches the scanner empty. -/
theorem imageUsed_nonempty (b : ReqBody)
    (h : b.image = none ∨ ∃ s, b.image = some s ∧ s ≠ "") :
    b.imageUsed ≠ "" := by
  rcases h with h | ⟨s, hs, hne⟩
  · simp [ReqBody.imageUsed, h]
  · simp [ReqBody.imageUsed, hs, hne]

/-- C9 amended witness: the defaulted image is non-empty. -/
theorem imageUsed_nonempty_witness :
    ReqBody.imageUsed ⟨none, none, none⟩ ≠ "" :=
  imageUsed_nonempty ⟨none, none, none⟩ (Or.inl rfl)

/-- C8: a raw finding with an absent fixed version normalizes to the
`No fix available` sentinel, an absent CVE identifier to `N/A`, an absent
package name to `Unknown`, and an absent installed version to `Unknown` —
never to a null or omitted field. -/
theorem normalize_sentinels (target : RawTarget) (vuln : RawVuln) :
    (vuln.FixedVersion = none →
      (normalizeVuln target vuln).fixed_version = "No fix available")
    ∧ (vuln.VulnerabilityID = none → (normalizeVuln target vuln).cve_id = "N/A")
    ∧ (vuln.PkgName = none → (normalizeVuln target vuln).package = "Unknown")
    ∧ (vuln.InstalledVersion = none →
      (normalizeVuln target vuln).installed_version = "Unknown") := by
  refine ⟨fun h => ?_, fun h => ?_, fun h => ?_, fun h => ?_⟩ <;>
    simp [normalizeVuln, h]

/-- A raw finding with every optional field absent. -/
def emptyRawVuln : RawVuln :=
  ⟨none, none, none, none, none, [], none, []⟩

/-- C8 witness: the sentinels on a fully absent raw finding. -/
theorem normalize_sentinels_witness :
    (normalizeVuln ⟨none, []⟩ emptyRawVuln).fixed_version = "No fix available"
    ∧ (normalizeVuln ⟨none, []⟩ emptyRawVuln).cve_id = "N/A"
    ∧ (normalizeVuln ⟨none, []⟩ emptyRawVuln).package = "Unknown"
    ∧ (normalizeVuln ⟨none, []⟩ emptyRawVuln).installed_version = "Unknown" :=
  ⟨(normalize_sentinels ⟨none, []⟩ emptyRawVuln).1 rfl,
   (normalize_sentinels ⟨none, []⟩ emptyRawVuln).2.1 rfl,
   (normalize_sentinels ⟨none, []⟩ emptyRawVuln).2.2.1 rfl,
   (normalize_sentinels ⟨none, []⟩ emptyRawVuln).2.2.2 rfl⟩

/-- C1: every invocation returns a response envelope carrying the CORS
headers (in particular `Access-Control-Allow-Origin`) and one of the three
status codes; the handler is a total function over all request bodies and
subprocess outcomes, so no modelled failure escapes as an unhandled fault,
and every body is a JSON value, hence serializes to parseable JSON. -/
theorem handler_always_responds (event : EventBody) (scan : ScanOutcome)
    (ver : VersionOutcome) (scan_time : String) :
    (handler event scan ver scan_time).headers = corsHeaders
    ∧ (handler event scan ver scan_time).headers.lookup "Access-Control-Allow-Origin"
        = some "*"
    ∧ ((handler event scan ver scan_time).statusCode = 200
        ∨ (handler event scan ver scan_time).statusCode = 500
        ∨ (handler event scan ver scan_time).statusCode = 504) := by
  cases h : parseEventBody event with
  | error e => simp [handler, h, internalErrorResponse, corsHeaders, List.lookup]
  | ok b =>
    cases scan with
    | timeout => simp [handler, h, corsHeaders, List.lookup]
    | completed rc stdout stderr =>
      by_cases hrc : rc ≠ 0 ∧ stdout.isEmpty
      · simp [handler, h, hrc, corsHeaders, List.lookup]
      · cases stdout <;>
          simp [handler, h, hrc, internalErrorResponse, successResponse,
            corsHeaders, List.lookup]

/-- C4: when the scan subprocess raises the timeout, the handler returns
status 504, and an image supplied in the request body is preserved in the
response body. -/
theorem timeout_returns_504 (event : EventBody) (b : ReqBody)
    (ver : VersionOutcome) (scan_time img : String)
    (hb : parseEventBody event = .ok b) :
    (handler event .timeout ver scan_time).statusCode = 504
    ∧ (b.image = some img →
        (handler event .timeout ver scan_time).body.lookup "image"
          = some (.str img)) := by
  constructor
  · simp [handler, hb]
  · intro hi
    simp [handler, hb, Json.lookup, List.lookup, hi]

/-- C4 witness: timeout on a request for `nginx:latest`. -/
theorem timeout_returns_504_witness :
    (handler (.objBody ⟨some "nginx:latest", none, none⟩) .timeout .failed "t").statusCode
      = 504
    ∧ (handler (.objBody ⟨some "nginx:latest", none, none⟩) .timeout .failed "t").body.lookup
        "image" = some (.str "nginx:latest") :=
  ⟨(timeout_returns_504 (.objBody ⟨some "nginx:latest", none, none⟩)
      ⟨some "nginx:latest", none, none⟩ .failed "t" "nginx:latest" rfl).1,
   (timeout_returns_504 (.objBody ⟨some "nginx:latest", none, none⟩)
      ⟨some "nginx:latest", none, none⟩ .failed "t" "nginx:latest" rfl).2 rfl⟩

/-- C5: with a non-zero exit code, stdout that parses takes the success
path and returns 200 carrying the transformed report; empty stdout yields
the 500 scan-failure envelope carrying the captured stderr; stdout the JSON
parser rejects yields the generic 500 envelope instead — so the
scan-failure envelope arises only from the no-output case. -/
theorem nonzero_exit_classification (event : EventBody) (b : ReqBody)
    (rc : Int) (out : TrivyOutput) (stderr e scan_time : String)
    (ver : VersionOutcome) (hb : parseEventBody event = .ok b)
    (hrc : rc ≠ 0) :
    handler event (.completed rc (.valid out) stderr) ver scan_time
      = successResponse b out ver scan_time
    ∧ (successResponse b out ver scan_time).statusCode = 200
    ∧ (successResponse b out ver scan_time).body.lookup "vulnerabilities"
        = some (.arr ((transformResults out.Results).map Finding.toJson))
    ∧ handler event (.completed rc .empty stderr) ver scan_time
      = { statusCode := 500, headers := corsHeaders
          body := .obj [("error", .str ("Trivy scan failed: " ++ stderr)),
                        ("image", .str b.imageUsed)] }
    ∧ handler event (.completed rc (.invalid e) stderr) ver scan_time
      = internalErrorResponse e := by
  refine ⟨?_, rfl, ?_, ?_, ?_⟩
  · simp [handler, hb, Stdout.isEmpty, Stdout.toOutput]
  · simp [successResponse, Json.lookup, List.lookup]
  · simp [handler, hb, Stdout.isEmpty, hrc]
  · simp [handler, hb, Stdout.isEmpty]

/-- C5 witness: exit code 1 with parseable (empty-report) stdout versus
exit code 1 with empty and with rejected stdout. -/
theorem nonzero_exit_classification_witness :
    handler (.objBody ⟨some "alpine:3", none, none⟩)
        (.completed 1 (.valid ⟨[]⟩) "err") .failed "t"
      = successResponse ⟨some "alpine:3", none, none⟩ ⟨[]⟩ .failed "t"
    ∧ (successResponse ⟨some "alpine:3", none, none⟩ ⟨[]⟩ .failed "t").statusCode = 200
    ∧ (successResponse ⟨some "alpine:3", none, none⟩ ⟨[]⟩ .failed "t").body.lookup
        "vulnerabilities"
        = some (.arr ((transformResults (TrivyOutput.mk []).Results).map Finding.toJson))
    ∧ handler (.objBody ⟨some "alpine:3", none, none⟩)
        (.completed 1 .empty "err") .failed "t"
      = { statusCode := 500, headers := corsHeaders
          body := .obj [("error", .str ("Trivy scan failed: " ++ "err")),
                        ("image", .str (ReqBody.imageUsed ⟨some "alpine:3", none, none⟩))] }
    ∧ handler (.objBody ⟨some "alpine:3", none, none⟩)
        (.completed 1 (.invalid "bad json") "err") .failed "t"
      = internalErrorResponse "bad json" :=
  nonzero_exit_classification (.objBody ⟨some "alpine:3", none, none⟩)
    ⟨some "alpine:3", none, none⟩ 1 ⟨[]⟩ "err" "bad json" "t" .failed rfl
    (by decide)

/-- C6: a failed version query degrades to the string `Unknown`, and the
version-query outcome never influences the primary response's status
code. -/
theorem version_best_effort (event : EventBody) (scan : ScanOutcome)
    (v v' : VersionOutcome) (scan_time : String) :
    get_trivy_version .failed = "Unknown"
    ∧ (handler event scan v scan_time).statusCode
        = (handler event scan v' scan_time).statusCode := by
  refine ⟨rfl, ?_⟩
  cases h : parseEventBody event with
  | error e => simp [handler, h]
  | ok b =>
    cases scan with
    | timeout => simp [handler, h]
    | completed rc stdout stderr =>
      by_cases hrc : rc ≠ 0 ∧ stdout.isEmpty
      · simp [handler, h, hrc]
      · cases stdout <;>
          simp [handler, h, hrc, internalErrorResponse, successResponse]

/-- C10: exit status 0 with empty stdout takes the success path: 200 with
an empty findings list, an all-zero summary, and live_data true. -/
theorem zero_exit_empty_output (event : EventBody) (b : ReqBody)
    (stderr scan_time : String) (ver : VersionOutcome)
    (hb : parseEventBody event = .ok b) :
    (handler event (.completed 0 .empty stderr) ver scan_time).statusCode = 200
    ∧ (handler event (.completed 0 .empty stderr) ver scan_time).body.lookup
        "vulnerabilities" = some (.arr [])
    ∧ (handler event (.completed 0 .empty stderr) ver scan_time).body.lookup
        "summary" = some (Summary.toJson ⟨0, 0, 0, 0, 0⟩)
    ∧ (handler event (.completed 0 .empty stderr) ver scan_time).body.lookup
        "live_data" = some (.bool true) := by
  refine ⟨?_, ?_, ?_, ?_⟩ <;>
    simp [handler, hb, Stdout.isEmpty, Stdout.toOutput, successResponse,
      transformResults, mkSummary, Summary.toJson, Json.lookup, List.lookup]

/-- C10 witness: a defaulted request with a clean, silent scan. -/
theorem zero_exit_empty_output_witness :
    (handler .absent (.completed 0 .empty "") .failed "t").statusCode = 200
    ∧ (handler .absent (.completed 0 .empty "") .failed "t").body.lookup
        "vulnerabilities" = some (.arr [])
    ∧ (handler .absent (.completed 0 .empty "") .failed "t").body.lookup
        "summary" = some (Summary.toJson ⟨0, 0, 0, 0, 0⟩)
    ∧ (handler .absent (.completed 0 .empty "") .failed "t").body.lookup
        "live_data" = some (.bool true) :=
  zero_exit_empty_output .absent ⟨none, none, none⟩ "" "t" .failed rfl
